import Mathlib

/-!
Verification development for the sandboxed tool-execution loop of the
AI_agent repository.  The Python source is shallowly embedded: paths are
strings manipulated by faithful models of `os.path.join`, `os.path.normpath`
and `os.path.abspath`; the filesystem is an explicit association list keyed
by canonical absolute path; fallible I/O and the spawned subprocess are
oracles passed as arguments.  Every definition mirrors the corresponding
Python function from `src/functions` and `src/main.py`.
-/

namespace AIAgent

/- ## Character / string utilities (models of the Python str operations used) -/

/-- Model of `list.startswith` on character lists: `listPre p s` is true when
`p` is an initial segment of `s`. -/
def listPre : List Char → List Char → Bool
  | [], _ => true
  | _ :: _, [] => false
  | p :: ps, c :: cs => p = c && listPre ps cs

/-- Model of Python `str.startswith`. -/
def strStartsWith (s pre : String) : Bool :=
  listPre pre.data s.data

/-- Model of Python `str.endswith`. -/
def strEndsWith (s suf : String) : Bool :=
  listPre suf.data.reverse s.data.reverse

/-- Substring occurrence on character lists (model of Python `in` /
`str.__contains__`). -/
def containsSubL (p : List Char) : List Char → Bool
  | [] => listPre p []
  | c :: cs => listPre p (c :: cs) || containsSubL p cs

/-- Model of Python `str.__contains__`. -/
def strContains (s sub : String) : Bool :=
  containsSubL sub.data s.data

/-- Model of Python `file.read(n)` / slicing: the first `n` characters. -/
def strTake (s : String) (n : Nat) : String :=
  String.mk (s.data.take n)

/-- Number of occurrences of a character in a string. -/
def countChar (c : Char) (s : String) : Nat :=
  s.data.countP (fun d => d = c)

/-- Split a character list on a separator character (model of
Python `str.split(sep)`): `splitOnChar '/' "a//b"` gives `["a","","b"]`. -/
def splitOnChar (sep : Char) : List Char → List (List Char)
  | [] => [[]]
  | c :: cs =>
    if c = sep then [] :: splitOnChar sep cs
    else
      match splitOnChar sep cs with
      | [] => [[c]]
      | g :: gs => (c :: g) :: gs

/-- Join character lists with a separator character (model of
Python `sep.join(...)`). -/
def joinWithChar (sep : Char) : List (List Char) → List Char
  | [] => []
  | [g] => g
  | g :: gs => g ++ sep :: joinWithChar sep gs

/-- Join strings with a separator string (model of Python `sep.join(list)`). -/
def strJoinSep (sep : String) : List String → String
  | [] => ""
  | [s] => s
  | s :: rest => s ++ sep ++ strJoinSep sep rest

/-- Concatenation of a list of strings. -/
def strConcat : List String → String
  | [] => ""
  | s :: rest => s ++ strConcat rest

/-- Model of Python `str.splitlines` for newline-terminated text, on
character lists: splits at each `'\n'`; a trailing newline produces no
final empty line, and the empty string yields no lines. -/
def splitlinesL : List Char → List (List Char)
  | [] => []
  | c :: cs =>
    if c = '\n' then [] :: splitlinesL cs
    else
      match splitlinesL cs with
      | [] => [[c]]
      | g :: gs => (c :: g) :: gs

/-- Python `str.splitlines` as used by `write_file`. -/
def splitlines (s : String) : List String :=
  (splitlinesL s.data).map String.mk

/-- A Python whitespace character (the set removed by `str.strip`). -/
def isSpaceChar (c : Char) : Bool :=
  c = ' ' || c = '\t' || c = '\n' || c = '\r' || c = '\x0b' || c = '\x0c'

/-- Model of the Python truthiness test `not s.strip()`: the string has no
non-whitespace character. -/
def isBlank (s : String) : Bool :=
  s.data.all isSpaceChar

/-- Decimal digit character, for rendering numbers the way Python `str` does. -/
def digitChar (n : Nat) : Char :=
  if n = 0 then '0' else if n = 1 then '1' else if n = 2 then '2'
  else if n = 3 then '3' else if n = 4 then '4' else if n = 5 then '5'
  else if n = 6 then '6' else if n = 7 then '7' else if n = 8 then '8'
  else if n = 9 then '9' else '*'

/-- Digit expansion used by `natRepr`; the fuel argument bounds recursion. -/
def natReprAux : Nat → Nat → List Char
  | 0, _ => []
  | fuel + 1, n =>
    if n < 10 then [digitChar n]
    else natReprAux fuel (n / 10) ++ [digitChar (n % 10)]

/-- Model of Python `str(n)` for a non-negative integer. -/
def natRepr (n : Nat) : String :=
  String.mk (natReprAux (n + 1) n)

/-- Model of Python `str(n)` for an integer (subprocess return codes may be
negative). -/
def intRepr (n : Int) : String :=
  if n < 0 then "-" ++ natRepr n.natAbs else natRepr n.natAbs

/-- Model of Python `str(b)` for a boolean (`True` / `False`). -/
def pyBool (b : Bool) : String :=
  if b then "True" else "False"

/- ## Path model: `os.path.join`, `os.path.normpath`, `os.path.abspath` -/

/-- True when the path string is absolute (POSIX `os.path.isabs`). -/
def isAbsPath (s : String) : Bool :=
  strStartsWith s "/"

/-- Model of POSIX `os.path.join(a, b)` for two components: an absolute `b`
replaces `a`; otherwise `b` is appended with a separator unless `a` is empty
or already ends with one. -/
def pjoin (a b : String) : String :=
  if isAbsPath b then b
  else if a = "" then b
  else if strEndsWith a "/" then a ++ b
  else a ++ "/" ++ b

/-- Leading-slash count as computed by POSIX `normpath` (two slashes are
preserved exactly when the path starts with `//` but not `///`). -/
def initialSlashes : List Char → Nat
  | '/' :: '/' :: '/' :: _ => 1
  | '/' :: '/' :: _ => 2
  | '/' :: _ => 1
  | _ => 0

/-- The component loop of POSIX `normpath`: drops empty and `.` components,
resolves `..` against the accumulated stack, and keeps `..` when it cannot be
resolved (relative path with empty stack, or stack headed by `..`). The
accumulator holds components in reverse order. -/
def normLoop (slashes : Nat) : List (List Char) → List (List Char) → List (List Char)
  | acc, [] => acc.reverse
  | acc, comp :: rest =>
    if comp = [] || comp = ['.'] then normLoop slashes acc rest
    else if comp ≠ ['.', '.'] || (slashes = 0 && acc = []) ||
        (acc ≠ [] && acc.head? = some ['.', '.']) then
      normLoop slashes (comp :: acc) rest
    else
      match acc with
      | [] => normLoop slashes [] rest
      | _ :: acc' => normLoop slashes acc' rest

/-- Model of POSIX `os.path.normpath` on character lists. -/
def normpathL (s : List Char) : List Char :=
  if s = [] then ['.']
  else
    let k := initialSlashes s
    let comps := normLoop k [] (splitOnChar '/' s)
    let out := List.replicate k '/' ++ joinWithChar '/' comps
    if out = [] then ['.'] else out

/-- Model of POSIX `os.path.normpath`. -/
def normpath (s : String) : String :=
  String.mk (normpathL s.data)

/-- Model of `os.path.abspath` relative to the process working directory
`cwd` (assumed absolute, as `os.getcwd` guarantees). -/
def abspath (cwd p : String) : String :=
  normpath (pjoin cwd p)

/-- Model of POSIX `os.path.dirname`: everything before the last slash, with
trailing slashes stripped unless the head is all slashes. -/
def dirnameL (s : List Char) : List Char :=
  let r := s.reverse
  let idx := r.findIdx (fun c => c = '/')
  if idx ≥ r.length then []
  else
    let head := (r.drop idx).reverse
    if head.all (fun c => c = '/') then head
    else (head.reverse.dropWhile (fun c => c = '/')).reverse

/-- Model of POSIX `os.path.dirname`. -/
def dirname (s : String) : String :=
  String.mk (dirnameL s.data)

/- ## Filesystem model

The filesystem is an association list from canonical absolute path strings to
nodes; lookups take the first matching entry, so updates shadow by prepending.
Directory nodes carry the list of direct child names (what `os.listdir`
returns) and, like files, the byte size `os.path.getsize` reports. -/

/-- A filesystem node: a regular file with its text content and byte size, or
a directory with its direct child names and byte size. -/
inductive FSNode where
  | file (content : String) (size : Nat)
  | dir (children : List String) (size : Nat)
deriving DecidableEq

/-- The filesystem: path-to-node association list, first match wins. -/
abbrev FS := List (String × FSNode)

/-- First-match lookup of a path. -/
def fsLookup : FS → String → Option FSNode
  | [], _ => none
  | (q, n) :: rest, p => if q = p then some n else fsLookup rest p

/-- Model of `os.path.exists`. -/
def pathExists (fs : FS) (p : String) : Bool :=
  (fsLookup fs p).isSome

/-- Model of `os.path.isfile`. -/
def isFileAt (fs : FS) (p : String) : Bool :=
  match fsLookup fs p with
  | some (.file _ _) => true
  | _ => false

/-- Model of `os.path.isdir`. -/
def isDirAt (fs : FS) (p : String) : Bool :=
  match fsLookup fs p with
  | some (.dir _ _) => true
  | _ => false

/-- Model of `os.path.getsize` (0 when the path is absent; the absent case is
only reached under the surrounding exception oracle). -/
def sizeAt (fs : FS) (p : String) : Nat :=
  match fsLookup fs p with
  | some (.file _ sz) => sz
  | some (.dir _ sz) => sz
  | none => 0

/-- Model of `os.listdir`. -/
def childrenAt (fs : FS) (p : String) : List String :=
  match fsLookup fs p with
  | some (.dir cs _) => cs
  | _ => []

/-- Text content of a regular file (empty when absent or a directory; those
cases are guarded by `isfile` checks or exception oracles in the callers). -/
def contentAt (fs : FS) (p : String) : String :=
  match fsLookup fs p with
  | some (.file c _) => c
  | _ => ""

/-- Functional update: the new binding shadows any previous one. -/
def fsSet (fs : FS) (p : String) (n : FSNode) : FS :=
  (p, n) :: fs

/-- Model of `os.makedirs(d, exist_ok=True)` for the directory that will hold
the written file (intermediate ancestors are elided: no specified behaviour
observes them). -/
def makedirs (fs : FS) (d : String) : FS :=
  if pathExists fs d then fs else (d, .dir [] 0) :: fs

/- ## Tool operations (src/functions) -/

/-- One formatted line of `get_files_info` output, from the source f-string
`"- {file_name}: file_size={file_size} bytes, is_dir={file_is_dir}\n"`. -/
def filesInfoLine (fs : FS) (target name : String) : String :=
  "- " ++ name ++ ": file_size=" ++ natRepr (sizeAt fs (pjoin target name)) ++
    " bytes, is_dir=" ++ pyBool (isDirAt fs (pjoin target name)) ++ "\n"

/-- Embedding of `get_files_info` (src/functions/get_files_info.py).  `cwd`
is the process working directory used by `os.path.abspath`; `fault` is the
exception oracle for the surrounding `try`, carrying the exception text. -/
def get_files_info (cwd : String) (fs : FS) (fault : Option String)
    (working_directory : String) (directory : String) : String :=
  match fault with
  | some e => "Error: " ++ e
  | none =>
    let abs_working_dir := abspath cwd working_directory
    let target_full_path := abspath cwd (pjoin working_directory directory)
    if !(strStartsWith target_full_path abs_working_dir) then
      "Error: Cannot list \"" ++ directory ++
        "\" as it is outside the permitted working directory"
    else if !(isDirAt fs target_full_path) then
      "Error: \"" ++ directory ++ "\" is not a directory"
    else if strContains abs_working_dir "/AI_agent" &&
        strStartsWith target_full_path abs_working_dir then
      (childrenAt fs target_full_path).foldl
        (fun acc name => acc ++ filesInfoLine fs target_full_path name) ""
    else
      "Error: Access denied - not within permitted project directory"

/-- Embedding of `get_file_content` (src/functions/get_file_content.py).
`maxChars` stands for `config.MAX_FILE_CHAR_LENGTH`; config.py is not among
the sources, and the spec only calls it a fixed configured cap, so the cap is
kept as a parameter.  `readFault` is the exception oracle for the `try`
around the read, carrying the exception text. -/
def get_file_content (cwd : String) (fs : FS) (maxChars : Nat)
    (readFault : Option String) (working_directory : String)
    (file_path : String) : String :=
  let abs_working_dir := abspath cwd working_directory
  let target_full_path := abspath cwd (pjoin working_directory file_path)
  if !(strStartsWith target_full_path abs_working_dir) then
    "Error: Cannot read \"" ++ file_path ++
      "\" as it is outside the permitted working directory"
  else if !(isFileAt fs target_full_path) then
    "Error: File not found or is not a regular file: \"" ++ file_path ++ "\""
  else
    match readFault with
    | some e => "Error: " ++ e
    | none => strTake (contentAt fs target_full_path) maxChars

/-- Comment delimiters chosen by `get_comment_style`: a line comment marker,
or a block open/close pair. -/
inductive CommentStyle where
  | line (s : String)
  | block (s e : String)
deriving DecidableEq

/-- Embedding of the nested `get_comment_style` of `write_file`. -/
def get_comment_style (file_path : String) : CommentStyle :=
  if strEndsWith file_path ".py" then .line "# "
  else if strEndsWith file_path ".js" || strEndsWith file_path ".ts" ||
      strEndsWith file_path ".java" || strEndsWith file_path ".c" ||
      strEndsWith file_path ".cpp" || strEndsWith file_path ".cs" then .line "// "
  else if strEndsWith file_path ".html" || strEndsWith file_path ".xml" then
    .block "<!-- " " -->"
  else if strEndsWith file_path ".md" then .block "<!-- " " -->"
  else if strEndsWith file_path ".css" || strEndsWith file_path ".scss" then
    .block "/* " " */"
  else .line "# "

/-- The per-line modification marker built by `add_line_attribution`. -/
def aiCommentOf (style : CommentStyle) (timestamp : String) : String :=
  match style with
  | .line s => " " ++ s ++ "Modified by AI Agent on " ++ timestamp
  | .block s e => " " ++ s ++ "Modified by AI Agent on " ++ timestamp ++ e

/-- The new-file header built by `add_line_attribution`. -/
def fileHeaderOf (style : CommentStyle) (timestamp : String) : String :=
  match style with
  | .line s => s ++ "File created by AI Agent on " ++ timestamp
  | .block s e => s ++ "File created by AI Agent on " ++ timestamp ++ e

/-- One step of the changed-line loop of `add_line_attribution`: line `i` of
the new content gets the marker appended when it was added or modified and is
not blank. -/
def attributedLine (original_lines : List String) (ai_comment : String)
    (i : Nat) (line : String) : String :=
  if original_lines.length ≤ i ∨
      (i < original_lines.length ∧ line ≠ original_lines.getD i "") then
    if !(isBlank line) then line ++ ai_comment else line
  else line

/-- Indexed map, the shape of the `for i in range(len(new_lines))` loop. -/
def mapWithIndex (f : Nat → String → String) : Nat → List String → List String
  | _, [] => []
  | i, line :: rest => f i line :: mapWithIndex f (i + 1) rest

/-- The `result_lines` list built by `add_line_attribution` for an existing
file. -/
def attributionLines (original_content new_content ai_comment : String) :
    List String :=
  mapWithIndex
    (fun i line => attributedLine (splitlines original_content) ai_comment i line)
    0 (splitlines new_content)

/-- Embedding of the nested `add_line_attribution` of `write_file`
(`is_new_file` is the closure variable it captures). -/
def add_line_attribution (is_new_file : Bool)
    (original_content new_content file_path timestamp : String) : String :=
  let comment_style := get_comment_style file_path
  let ai_comment := aiCommentOf comment_style timestamp
  let file_header := fileHeaderOf comment_style timestamp
  if is_new_file then
    if !(isBlank new_content) then file_header ++ "\n" ++ new_content
    else file_header ++ "\n"
  else
    strJoinSep "\n" (attributionLines original_content new_content ai_comment)

/-- The exceptions distinguished by the `try` around the final write of
`write_file`. -/
inductive WriteFault where
  | permission
  | osError (e : String)
  | other (e : String)
deriving DecidableEq

/-- Embedding of `write_file` (src/functions/write_file_content.py),
returning the updated filesystem together with the reported string.
`timestamp` stands for `datetime.datetime.now().strftime(...)`;
`mkdirFault`, `origReadFault` and `writeFault` are the exception oracles of
the three `try` blocks (directory creation, reading the prior content, and
the final write). -/
def write_file (cwd : String) (fs : FS) (timestamp : String)
    (mkdirFault : Option String) (origReadFault : Bool)
    (writeFault : Option WriteFault) (working_directory : String)
    (file_path : String) (content : String) : FS × String :=
  let abs_working_dir := abspath cwd working_directory
  let file_full_path := abspath cwd (pjoin working_directory file_path)
  if !(strStartsWith file_full_path abs_working_dir) then
    (fs, "Error: Cannot write to \"" ++ file_path ++
      "\" as it is outside the permitted working directory")
  else if !(pathExists fs file_full_path) && mkdirFault.isSome then
    (fs, "Error creating directory: " ++ mkdirFault.getD "")
  else
    let fs1 := if !(pathExists fs file_full_path) then
      makedirs fs (dirname file_full_path) else fs
    if pathExists fs1 file_full_path && isDirAt fs1 file_full_path then
      (fs1, "Error: \"" ++ file_path ++ "\" is a directory, not a file")
    else
      let is_new_file := !(pathExists fs1 file_full_path)
      let original_content :=
        if is_new_file then ""
        else if origReadFault then "" else contentAt fs1 file_full_path
      let final_content :=
        add_line_attribution is_new_file original_content content file_path timestamp
      match writeFault with
      | some .permission =>
        (fs1, "Error: Permission denied writing to '" ++ file_path ++ "'")
      | some (.osError e) =>
        (fs1, "Error: File system error writing to '" ++ file_path ++ "': " ++ e)
      | some (.other e) => (fs1, "Error writing to file: " ++ e)
      | none =>
        let fs2 := fsSet fs1 file_full_path (.file final_content final_content.length)
        let original_line_count :=
          if original_content = "" then 0 else (splitlines original_content).length
        let new_line_count := (splitlines final_content).length
        let action := if is_new_file then "created" else "modified"
        (fs2, "Successfully " ++ action ++ " \"" ++ file_path ++
          "\" with line-by-line AI attribution (" ++
          natRepr final_content.length ++ " characters, " ++
          natRepr new_line_count ++ " lines, " ++
          natRepr ((new_line_count : Int) - original_line_count).natAbs ++
          " lines changed)")

/-- The success string `write_file` reports: the same expression the source
builds, naming the character count of the attributed content actually
written (not of the caller-supplied content). -/
def writeSuccessMessage (is_new_file : Bool)
    (original_content final_content file_path : String) : String :=
  let original_line_count :=
    if original_content = "" then 0 else (splitlines original_content).length
  let new_line_count := (splitlines final_content).length
  let action := if is_new_file then "created" else "modified"
  "Successfully " ++ action ++ " \"" ++ file_path ++
    "\" with line-by-line AI attribution (" ++
    natRepr final_content.length ++ " characters, " ++
    natRepr new_line_count ++ " lines, " ++
    natRepr ((new_line_count : Int) - original_line_count).natAbs ++
    " lines changed)"

/-- Outcome of the spawned `subprocess.run`: completion with a wall-clock
duration, captured streams and return code, or any other exception text. -/
inductive ProcResult where
  | completed (duration : Nat) (stdout stderr : String) (returncode : Int)
  | fault (e : String)
deriving DecidableEq

/-- The fixed wall-clock bound passed as `timeout=30` to `subprocess.run`. -/
def TIMEOUT_SECONDS : Nat := 30

/-- Embedding of `run_python_file` (src/functions/run_python.py).  A
completion whose duration exceeds `TIMEOUT_SECONDS` raises `TimeoutExpired`
in the source, which the handler turns into the timeout error string. -/
def run_python_file (cwd : String) (fs : FS) (proc : ProcResult)
    (working_directory : String) (file_path : String)
    (args : List String) : String :=
  let abs_working_dir := abspath cwd working_directory
  let file_full_path := abspath cwd (pjoin working_directory file_path)
  let _complete_args := "python3" :: file_full_path :: args
  if !(strStartsWith file_full_path abs_working_dir) then
    "Error: Cannot execute \"" ++ file_path ++
      "\" as it is outside the permitted working directory"
  else if !(pathExists fs file_full_path) then
    "Error: File \"" ++ file_path ++ "\" not found."
  else if !(strEndsWith file_full_path ".py") then
    "Error: \"" ++ file_path ++ "\" is not a Python file."
  else
    match proc with
    | .fault e => "Error executing Python file: " ++ e
    | .completed duration stdout stderr returncode =>
      if TIMEOUT_SECONDS < duration then
        "Error: Python file execution timed out after 30 seconds"
      else
        let output :=
          (if stdout ≠ "" then ["STDOUT:\n" ++ stdout] else []) ++
          (if stderr ≠ "" then ["STDERR:\n" ++ stderr] else []) ++
          (if returncode ≠ 0 then
            ["Process exited with code " ++ intRepr returncode] else [])
        if output = [] then "No output produced." else strJoinSep "\n" output

/- ## Tool dispatcher (src/functions/call_function.py) -/

/-- A value in the keyword-argument mapping the decision engine supplies:
the schemas send strings, plus a string list for `run_python_file`'s
optional `args`. -/
inductive ArgVal where
  | str (s : String)
  | strList (l : List String)
deriving DecidableEq

/-- Keyword-argument mapping, first match wins on lookup. -/
abbrev Args := List (String × ArgVal)

/-- First-match lookup of a keyword argument. -/
def argsLookup : Args → String → Option ArgVal
  | [], _ => none
  | (k, v) :: rest, key => if k = key then some v else argsLookup rest key

/-- Remove every binding of a key. -/
def argsErase (key : String) : Args → Args
  | [] => []
  | (k, v) :: rest =>
    if k = key then argsErase key rest else (k, v) :: argsErase key rest

/-- Model of the dictionary assignment `args_copy[key] = v`: the new binding
shadows and supersedes any caller-supplied one. -/
def argsSet (m : Args) (key : String) (v : ArgVal) : Args :=
  (key, v) :: argsErase key m

/-- Fetch a string-valued argument. -/
def getStrArg (m : Args) (key : String) : Option String :=
  match argsLookup m key with
  | some (.str s) => some s
  | _ => none

/-- Fetch a string-valued argument with the schema default. -/
def getStrArgD (m : Args) (key fallback : String) : String :=
  (getStrArg m key).getD fallback

/-- Fetch the optional string-list argument with default `[]`. -/
def getListArgD (m : Args) (key : String) : List String :=
  match argsLookup m key with
  | some (.strList l) => l
  | _ => []

/-- A `function_call_part` of the decision engine's response: tool name plus
keyword arguments. -/
structure FunctionCallPart where
  name : String
  args : Args
deriving DecidableEq

/-- The `response` dictionary `call_function` wraps: `error` for unknown
tools, `result` for a dispatched tool's string. -/
inductive ToolResponse where
  | errorResp (msg : String)
  | resultResp (payload : String)
deriving DecidableEq

/-- The `types.Content(role="tool", ...)` envelope `call_function` returns. -/
structure ToolContent where
  role : String
  name : String
  response : ToolResponse
deriving DecidableEq

/-- The oracles a dispatched call runs against: process working directory,
filesystem, the read cap, the timestamp, the per-operation exception oracles
and the subprocess outcome. -/
structure Ctx where
  cwd : String
  fs : FS
  maxChars : Nat
  timestamp : String
  listFault : Option String
  readFault : Option String
  origReadFault : Bool
  mkdirFault : Option String
  writeFault : Option WriteFault
  proc : ProcResult

/-- The literal working-directory value `call_function` injects
(`args_copy["working_directory"] = "./calculator"`). -/
def injectedRoot : String := "./calculator"

/-- The keys of the static function registry of `call_function`. -/
def registryNames : List String :=
  ["get_file_content", "get_files_info", "write_file", "run_python_file"]

/-- The keyword parameters each registered tool function accepts, read off
the source signatures: `get_files_info(working_directory, directory=".")`,
`get_file_content(working_directory, file_path)`,
`write_file(working_directory, file_path, content)`,
`run_python_file(working_directory, file_path, args=[])`. -/
def acceptedParams (name : String) : List String :=
  if name = "get_file_content" then ["working_directory", "file_path"]
  else if name = "get_files_info" then ["working_directory", "directory"]
  else if name = "write_file" then ["working_directory", "file_path", "content"]
  else ["working_directory", "file_path", "args"]

/-- Every key of the argument mapping is an accepted parameter — the check
Python performs when unpacking `selected_func(**args_copy)`: any other key
raises `TypeError` before the tool function's body runs. -/
def keysOk (params : List String) : Args → Bool
  | [] => true
  | (k, _) :: rest => params.contains k && keysOk params rest

/-- Embedding of `call_function` (src/functions/call_function.py).  Returns
the possibly-updated filesystem and the tool-role envelope; `none` models a
`TypeError` escaping `selected_func(**args_copy)` — the source does not
catch it there (the loop's per-iteration handler does): a caller key outside
the selected function's parameters, a missing required parameter, or an
ill-typed `file_path`/`content` value (those flow into `os.path.join` or
`str` methods before any `try` in the source).  Scoped corner, disclosed: an
ill-typed value at the optional `directory`/`args` keys is modelled by the
schema default; the source would answer it with an `"Error:"`-headed string
from inside the operation's `try` — both are ordinary envelopes determined
by the same key, so no statement below distinguishes the two renderings. -/
def call_function (ctx : Ctx) (part : FunctionCallPart) :
    Option (FS × ToolContent) :=
  if part.name ∉ registryNames then
    some (ctx.fs, ⟨"tool", part.name,
      .errorResp ("Unknown function: " ++ part.name)⟩)
  else
    let args_copy := argsSet part.args "working_directory" (.str injectedRoot)
    if !(keysOk (acceptedParams part.name) args_copy) then none
    else
    match getStrArg args_copy "working_directory" with
    | none => none
    | some wd =>
      if part.name = "get_file_content" then
        match getStrArg args_copy "file_path" with
        | none => none
        | some fp => some (ctx.fs, ⟨"tool", part.name, .resultResp
            (get_file_content ctx.cwd ctx.fs ctx.maxChars ctx.readFault wd fp)⟩)
      else if part.name = "get_files_info" then
        some (ctx.fs, ⟨"tool", part.name, .resultResp
          (get_files_info ctx.cwd ctx.fs ctx.listFault wd
            (getStrArgD args_copy "directory" "."))⟩)
      else if part.name = "write_file" then
        match getStrArg args_copy "file_path", getStrArg args_copy "content" with
        | some fp, some c =>
          let r := write_file ctx.cwd ctx.fs ctx.timestamp ctx.mkdirFault
            ctx.origReadFault ctx.writeFault wd fp c
          some (r.1, ⟨"tool", part.name, .resultResp r.2⟩)
        | _, _ => none
      else
        match getStrArg args_copy "file_path" with
        | none => none
        | some fp => some (ctx.fs, ⟨"tool", part.name, .resultResp
            (run_python_file ctx.cwd ctx.fs ctx.proc wd fp
              (getListArgD args_copy "args"))⟩)

/- ## Agent loop (src/main.py) -/

/-- One decision-engine reply: its text and the tool calls it requests (the
loop is done exactly when `function_calls` is empty). -/
structure EngineResponse where
  text : String
  function_calls : List FunctionCallPart

/-- A turn of the conversation history. -/
inductive Msg where
  | user (text : String)
  | model (r : EngineResponse)
  | tool (c : ToolContent)

/-- How a run of the loop in `main` ends: a final answer printed, an
exception caught by the per-iteration handler, or silent exhaustion of the
`for iteration in range(20)` bound. -/
inductive LoopOutcome where
  | finalAnswer (text : String)
  | errorBreak (iteration : Nat) (e : String)
  | exhausted
deriving DecidableEq

/-- Dispatch one requested call against the current oracles, threading the
filesystem. -/
def dispatchStep (ctx : Ctx) (fc : FunctionCallPart) :
    Option (Ctx × ToolContent) :=
  match call_function ctx fc with
  | none => none
  | some (fs', c) => some ({ ctx with fs := fs' }, c)

/-- Dispatch the round's requested calls in order, accumulating the
tool-role turns; `none` when an exception escapes a dispatch. -/
def execCalls (ctx : Ctx) : List FunctionCallPart → List Msg →
    Option (Ctx × List Msg)
  | [], acc => some (ctx, acc)
  | fc :: rest, acc =>
    match dispatchStep ctx fc with
    | none => none
    | some (ctx', c) => execCalls ctx' rest (acc ++ [Msg.tool c])

/-- Embedding of the `for iteration in range(20)` loop of `main`: `engine`
models `client.models.generate_content` (its `Except.error` is an exception
caught by the per-iteration handler), `fuel` is the number of remaining
iterations.  Returns the outcome together with the number of rounds the
engine was consulted. -/
def runLoop (engine : List Msg → Except String EngineResponse) :
    Ctx → Nat → Nat → List Msg → LoopOutcome × Nat
  | _, 0, _, _ => (.exhausted, 0)
  | ctx, fuel + 1, iteration, msgs =>
    match engine msgs with
    | .error e => (.errorBreak iteration e, 1)
    | .ok resp =>
      let msgs1 := msgs ++ [Msg.model resp]
      if resp.function_calls.isEmpty then (.finalAnswer resp.text, 1)
      else
        match execCalls ctx resp.function_calls [] with
        | none => (.errorBreak iteration "TypeError", 1)
        | some (ctx', toolMsgs) =>
          let r := runLoop engine ctx' fuel (iteration + 1) (msgs1 ++ toolMsgs)
          (r.1, r.2 + 1)

/-- The iteration bound of `main` (`for iteration in range(20)`). -/
def MAX_ITERATIONS : Nat := 20

/-- The whole agent loop of `main`, from the initial user turn. -/
def agent_main (engine : List Msg → Except String EngineResponse)
    (ctx : Ctx) (user_prompt : String) : LoopOutcome × Nat :=
  runLoop engine ctx MAX_ITERATIONS 0 [Msg.user user_prompt]

/-- What `main` prints when the loop ends: the final-answer panel text, the
per-iteration error line, or nothing at all when the `range(20)` bound is
exhausted. -/
def terminationMessage : LoopOutcome → String
  | .finalAnswer t => t
  | .errorBreak i e => "Error in iteration " ++ natRepr i ++ ": " ++ e
  | .exhausted => ""

/- ## Concrete fixtures used by witnesses and counterexamples -/

/-- Filesystem used to exhibit the prefix-check weakness: the sibling
`/a/bc` of the root `/a/b` shares a bare string prefix with it. -/
def fsC1 : FS :=
  [("/a", .dir ["b", "bc"] 4096), ("/a/b", .dir [] 4096),
   ("/a/bc", .file "secret" 6)]

/-- Filesystem with a Python script for the subprocess claims. -/
def fsPy : FS :=
  [("/w", .dir ["s.py"] 4096), ("/w/s.py", .file "print(1)" 8)]

/-- A decision engine that requests one (unknown) tool every round and never
produces a Done transition. -/
def engAlways : List Msg → Except String EngineResponse :=
  fun _ => .ok ⟨"", [⟨"nope", []⟩]⟩

/-- A concrete oracle bundle for running the loop. -/
def ctx0 : Ctx :=
  { cwd := "/", fs := [], maxChars := 1000,
    timestamp := "2024-01-01 00:00:00", listFault := none, readFault := none,
    origReadFault := false, mkdirFault := none, writeFault := none,
    proc := .fault "unavailable" }

/-- Filesystem whose root directory does not contain `/AI_agent` in its
canonical path: the listing is refused. -/
def fsL : FS :=
  [("/tmp/work", .dir ["a.txt"] 4096), ("/tmp/work/a.txt", .file "hi" 2)]

/-- Filesystem whose root passes the `/AI_agent` project check. -/
def fsL2 : FS :=
  [("/AI_agent/w", .dir ["a.txt"] 4096), ("/AI_agent/w/a.txt", .file "hi" 2)]

/-- A directory with no prior file, for the write/read claims. -/
def fsW : FS := [("/w", .dir [] 4096)]

/-- A fixed timestamp oracle value. -/
def TS0 : String := "2024-01-01 00:00:00"

/-- A directory holding a one-line Python file, for the attribution
claims. -/
def fsP : FS := [("/w", .dir ["f.py"] 4096), ("/w/f.py", .file "a" 1)]

/- ## General lemmas about the string and path models -/

lemma listPre_append_left (p s t : List Char) (h : listPre p s = true) :
    listPre p (s ++ t) = true := by
  induction p generalizing s with
  | nil => rfl
  | cons a ps ih =>
    cases s with
    | nil => simp [listPre] at h
    | cons c cs =>
      simp only [listPre, Bool.and_eq_true] at h ⊢
      exact ⟨h.1, ih cs h.2⟩

lemma strStartsWith_append (a b p : String) (h : strStartsWith a p = true) :
    strStartsWith (a ++ b) p = true := by
  unfold strStartsWith at h ⊢
  rw [String.data_append a b]
  exact listPre_append_left _ _ _ h

lemma isAbsPath_data {s : String} (h : isAbsPath s = true) :
    ∃ t, s.data = '/' :: t := by
  unfold isAbsPath strStartsWith at h
  have hd : ("/" : String).data = ['/'] := rfl
  rw [hd] at h
  cases he : s.data with
  | nil => rw [he] at h; simp [listPre] at h
  | cons c cs =>
    rw [he] at h
    simp only [listPre, Bool.and_eq_true] at h
    have : '/' = c := by simpa using h.1
    exact ⟨cs, by rw [← this]⟩

lemma isAbsPath_append {a : String} (b : String) (ha : isAbsPath a = true) :
    isAbsPath (a ++ b) = true := by
  unfold isAbsPath
  exact strStartsWith_append a b "/" ha

lemma isAbsPath_empty : isAbsPath "" = false := by decide

lemma isAbsPath_pjoin_left {a : String} (b : String) (ha : isAbsPath a = true) :
    isAbsPath (pjoin a b) = true := by
  unfold pjoin
  by_cases hb : isAbsPath b = true
  · simp [hb]
  · have hne : a ≠ "" := by
      intro h0; rw [h0] at ha; exact absurd ha (by decide)
    simp only [Bool.not_eq_true] at hb
    by_cases hsl : strEndsWith a "/" = true
    · simp [hb, hne, hsl, isAbsPath_append _ ha]
    · simp only [Bool.not_eq_true] at hsl
      have h1 : isAbsPath (a ++ "/") = true := isAbsPath_append _ ha
      simp [hb, hne, hsl, isAbsPath_append _ h1]

lemma initialSlashes_pos {s : List Char} (h : listPre ['/'] s = true) :
    1 ≤ initialSlashes s := by
  cases s with
  | nil => simp [listPre] at h
  | cons c cs =>
    simp only [listPre, Bool.and_eq_true] at h
    have hc : c = '/' := by have := h.1; simpa [eq_comm] using this
    subst hc
    unfold initialSlashes
    split
    · omega
    · omega
    · omega
    · next h1 h2 h3 => exact absurd rfl (h3 cs)

lemma isAbsPath_normpath {s : String} (h : isAbsPath s = true) :
    isAbsPath (normpath s) = true := by
  obtain ⟨t, ht⟩ := isAbsPath_data h
  unfold normpath normpathL
  rw [ht]
  have hk : 1 ≤ initialSlashes ('/' :: t) :=
    initialSlashes_pos (by simp [listPre])
  simp only [reduceCtorEq, if_false, List.cons_ne_self]
  obtain ⟨m, hm⟩ : ∃ m, initialSlashes ('/' :: t) = m + 1 :=
    ⟨initialSlashes ('/' :: t) - 1, by omega⟩
  rw [hm, List.replicate_succ]
  simp only [List.cons_append]
  rw [if_neg (by simp)]
  simp [isAbsPath, strStartsWith, listPre]

lemma isAbsPath_abspath {cwd : String} (p : String) (h : isAbsPath cwd = true) :
    isAbsPath (abspath cwd p) = true :=
  isAbsPath_normpath (isAbsPath_pjoin_left p h)

/- ## Claim theorems -/


/-- C1: the code's containment test is `target.startswith(abs_working_dir)`
with no separator, so for root `/a/b` the sibling `/a/bc` — outside the root
under the canonical-prefix-with-separator relation the claim states — is
admitted, and `get_file_content` reads it. -/
theorem C1_bare_string_prefix_admits_sibling :
    abspath "/" (pjoin "/a/b" "../bc") = "/a/bc" ∧
    strStartsWith "/a/bc" (abspath "/" "/a/b") = true ∧
    ¬("/a/bc" = abspath "/" "/a/b" ∨
      strStartsWith "/a/bc" (abspath "/" "/a/b" ++ "/") = true) ∧
    get_file_content "/" fsC1 1000 none "/a/b" "../bc" = "secret" := by
  refine ⟨by decide, by decide, by decide, by decide⟩

/-- C4 counterexample: the working-directory value the dispatcher injects is
the literal `"./calculator"` — relative, and not canonical (normpath changes
it) — contradicting the claim that the confinement root is an absolute,
canonicalized path. -/
theorem C4_relative_root_cex :
    injectedRoot = "./calculator" ∧ isAbsPath injectedRoot = false ∧
    normpath injectedRoot ≠ injectedRoot := by
  refine ⟨rfl, by decide, by decide⟩

/-- C4 (amended): the dispatcher injects the fixed relative literal
`"./calculator"` for every request, overriding the caller's value; it is not
absolute, and it only becomes an absolute path inside each tool operation,
via `abspath` against the (absolute) process working directory. -/
theorem C4_injected_root_properties :
    (∀ m : Args, argsLookup (argsSet m "working_directory" (.str injectedRoot))
      "working_directory" = some (.str injectedRoot)) ∧
    isAbsPath injectedRoot = false ∧
    ∀ cwd : String, isAbsPath cwd = true →
      isAbsPath (abspath cwd injectedRoot) = true := by
  refine ⟨fun m => ?_, by decide, fun cwd h => isAbsPath_abspath injectedRoot h⟩
  unfold argsSet argsLookup
  simp

/-- C4 witness: the amended statement evaluated at a concrete process
working directory and a caller that supplied its own root. -/
theorem C4_injected_root_witness :
    isAbsPath "/home/me/AI_agent" = true ∧
    isAbsPath (abspath "/home/me/AI_agent" injectedRoot) = true ∧
    argsLookup (argsSet [("working_directory", ArgVal.str "/evil")]
      "working_directory" (.str injectedRoot)) "working_directory" =
      some (.str injectedRoot) :=
  ⟨by decide, C4_injected_root_properties.2.2 "/home/me/AI_agent" (by decide),
   C4_injected_root_properties.1 _⟩


/-- C7: when the spawned script's wall-clock duration exceeds the fixed
30-second bound, `run_python_file` returns the timeout error string (an
error result, not an unhandled exception). -/
theorem C7_timeout_reported (cwd : String) (fs : FS) (wd fp : String)
    (args : List String) (dur : Nat) (out err : String) (rc : Int)
    (h1 : strStartsWith (abspath cwd (pjoin wd fp)) (abspath cwd wd) = true)
    (h2 : pathExists fs (abspath cwd (pjoin wd fp)) = true)
    (h3 : strEndsWith (abspath cwd (pjoin wd fp)) ".py" = true)
    (h4 : TIMEOUT_SECONDS < dur) :
    run_python_file cwd fs (.completed dur out err rc) wd fp args =
      "Error: Python file execution timed out after 30 seconds" := by
  unfold run_python_file
  simp [h1, h2, h3, h4]

/-- C7 witness: a script that runs 31 seconds is reported as timed out. -/
theorem C7_timeout_witness :
    TIMEOUT_SECONDS < 31 ∧
    run_python_file "/" fsPy (.completed 31 "" "" 0) "/w" "s.py" [] =
      "Error: Python file execution timed out after 30 seconds" :=
  ⟨by decide, C7_timeout_reported "/" fsPy "/w" "s.py" [] 31 "" "" 0
    (by decide) (by decide) (by decide) (by decide)⟩

/- ## Agent-loop lemmas and claim C5 -/

lemma runLoop_rounds_le (engine : List Msg → Except String EngineResponse) :
    ∀ (fuel : Nat) (ctx : Ctx) (i : Nat) (msgs : List Msg),
      (runLoop engine ctx fuel i msgs).2 ≤ fuel := by
  intro fuel
  induction fuel with
  | zero => intro ctx i msgs; simp [runLoop]
  | succ n ih =>
    intro ctx i msgs
    unfold runLoop
    split
    · simp
    · split
      · simp
      · split
        · simp
        · next ctx' toolMsgs _ =>
          exact Nat.succ_le_succ (ih ctx' (i + 1) _)

lemma runLoop_exhausted_of_nonstop (engine : List Msg → Except String EngineResponse)
    (hAlways : ∀ msgs, ∃ r, engine msgs = .ok r ∧ r.function_calls ≠ [] ∧
      ∀ c : Ctx, execCalls c r.function_calls [] ≠ none) :
    ∀ (fuel : Nat) (ctx : Ctx) (i : Nat) (msgs : List Msg),
      (runLoop engine ctx fuel i msgs).1 = .exhausted := by
  intro fuel
  induction fuel with
  | zero => intro ctx i msgs; rfl
  | succ n ih =>
    intro ctx i msgs
    obtain ⟨r, hr, hne, hexec⟩ := hAlways msgs
    have hemp : r.function_calls.isEmpty = false := by
      simpa [List.isEmpty_iff] using hne
    unfold runLoop
    rw [hr]
    simp only [hemp, Bool.false_eq_true, if_false]
    cases hec : execCalls ctx r.function_calls [] with
    | none => exact absurd hec (hexec ctx)
    | some p =>
      obtain ⟨ctx', tms⟩ := p
      exact ih ctx' (i + 1) _

/-- C5 (amended): however the decision engine behaves, the loop of `main`
consults it at most 20 times; and when it never produces a Done transition
(always requests tools that dispatch without a fault), the loop exhausts the
`range(20)` bound and ends silently — as `exhausted`, with no termination
message printed at all — rather than continuing or raising. -/
theorem C5_iteration_bound (engine : List Msg → Except String EngineResponse)
    (ctx : Ctx) (prompt : String) :
    (agent_main engine ctx prompt).2 ≤ MAX_ITERATIONS ∧
    ((∀ msgs, ∃ r, engine msgs = .ok r ∧ r.function_calls ≠ [] ∧
        ∀ c : Ctx, execCalls c r.function_calls [] ≠ none) →
      (agent_main engine ctx prompt).1 = .exhausted ∧
      terminationMessage (agent_main engine ctx prompt).1 = "") := by
  constructor
  · exact runLoop_rounds_le engine MAX_ITERATIONS ctx 0 [Msg.user prompt]
  · intro hAlways
    have h : (agent_main engine ctx prompt).1 = .exhausted :=
      runLoop_exhausted_of_nonstop engine hAlways MAX_ITERATIONS ctx 0
        [Msg.user prompt]
    exact ⟨h, by rw [h]; rfl⟩



/-- Dispatching an unregistered tool name yields the unknown-function
envelope (an ordinary result, not an exception), for any oracles. -/
lemma call_function_unknown (ctx : Ctx) :
    call_function ctx ⟨"nope", []⟩ =
      some (ctx.fs, ⟨"tool", "nope", .errorResp ("Unknown function: " ++ "nope")⟩) := by
  rfl

/-- C5 counterexample: under an engine that requests tools forever, the loop
ends as `exhausted` and the message `main` prints on termination does not
mention max iterations (nothing is printed at all), contrary to the claimed
"max iterations" explanation. -/
theorem C5_no_max_iterations_message_cex :
    (agent_main engAlways ctx0 "go").1 = LoopOutcome.exhausted ∧
    strContains (terminationMessage (agent_main engAlways ctx0 "go").1)
      "max iterations" = false ∧
    (agent_main engAlways ctx0 "go").2 = 20 := by
  refine ⟨by decide, by decide, by decide⟩

/-- C5 witness: the amended bound and silent exhaustion at the concrete
always-requesting engine. -/
theorem C5_iteration_bound_witness :
    (agent_main engAlways ctx0 "run").2 ≤ MAX_ITERATIONS ∧
    (agent_main engAlways ctx0 "run").1 = LoopOutcome.exhausted :=
  ⟨(C5_iteration_bound engAlways ctx0 "run").1,
   ((C5_iteration_bound engAlways ctx0 "run").2
     (fun _ => ⟨⟨"", [⟨"nope", []⟩]⟩, rfl, by decide,
       fun c => by rw [execCalls, dispatchStep, call_function_unknown c]; simp [execCalls]⟩)).1⟩

/- ## Claim C6: non-zero exit codes are reported inside an Ok payload -/

lemma listPre_append_of_le (p s t : List Char) (h : p.length ≤ s.length) :
    listPre p (s ++ t) = listPre p s := by
  induction p generalizing s with
  | nil => rfl
  | cons a ps ih =>
    cases s with
    | nil => simp at h
    | cons c cs =>
      simp only [List.cons_append, listPre]
      congr 1
      exact ih cs (by simpa using h)

lemma strStartsWith_append_left_of_le (a b p : String)
    (h : p.data.length ≤ a.data.length) :
    strStartsWith (a ++ b) p = strStartsWith a p := by
  unfold strStartsWith
  rw [String.data_append, listPre_append_of_le _ _ _ h]

lemma strLength_data (s : String) : s.data.length = s.length := rfl

lemma startsWith_error_false_of_lit (lit rest : String)
    (hlit : strStartsWith lit "Error" = false)
    (hlen : ("Error" : String).data.length ≤ lit.data.length) :
    strStartsWith (lit ++ rest) "Error" = false := by
  rw [strStartsWith_append_left_of_le _ _ _ hlen]
  exact hlit

/-- C6: a script that completes within the timeout with a non-zero exit code
yields a success payload ending in the explicit exit-code line, and that
payload is not an error string (it does not start with "Error"). -/
theorem C6_nonzero_exit_in_ok_payload (cwd : String) (fs : FS) (wd fp : String)
    (args : List String) (dur : Nat) (out err : String) (rc : Int)
    (h1 : strStartsWith (abspath cwd (pjoin wd fp)) (abspath cwd wd) = true)
    (h2 : pathExists fs (abspath cwd (pjoin wd fp)) = true)
    (h3 : strEndsWith (abspath cwd (pjoin wd fp)) ".py" = true)
    (h4 : dur ≤ TIMEOUT_SECONDS) (h5 : rc ≠ 0) :
    (∃ pre, run_python_file cwd fs (.completed dur out err rc) wd fp args =
        pre ++ ("Process exited with code " ++ intRepr rc)) ∧
    strStartsWith (run_python_file cwd fs (.completed dur out err rc) wd fp args)
      "Error" = false := by
  have hT : ¬ (TIMEOUT_SECONDS < dur) := Nat.not_lt.mpr h4
  unfold run_python_file
  simp only [h1, h2, h3, Bool.not_true, Bool.false_eq_true, if_false, hT,
    ite_false]
  by_cases ho : out = ""
  · subst ho
    by_cases he : err = ""
    · subst he
      simp only [ne_eq, not_true_eq_false, if_false, ite_false,
        List.nil_append, h5, not_false_eq_true, ite_true, if_true]
      rw [if_neg (by simp)]
      simp only [strJoinSep]
      refine ⟨⟨"", (String.empty_append _).symm⟩, ?_⟩
      exact startsWith_error_false_of_lit "Process exited with code "
        (intRepr rc) (by decide) (by decide)
    · simp only [ne_eq, not_true_eq_false, if_false, ite_false, he,
        not_false_eq_true, ite_true, if_true, List.nil_append, h5,
        List.cons_append]
      rw [if_neg (by simp)]
      simp only [strJoinSep]
      refine ⟨⟨("STDERR:\n" ++ err) ++ "\n", rfl⟩, ?_⟩
      rw [String.append_assoc, String.append_assoc]
      refine startsWith_error_false_of_lit "STDERR:\n" _ (by decide) (by decide)
  · by_cases he : err = ""
    · subst he
      simp only [ne_eq, not_true_eq_false, if_false, ite_false, ho,
        not_false_eq_true, ite_true, if_true, List.nil_append, h5,
        List.cons_append]
      rw [if_neg (by simp)]
      simp only [strJoinSep]
      refine ⟨⟨("STDOUT:\n" ++ out) ++ "\n", rfl⟩, ?_⟩
      rw [String.append_assoc, String.append_assoc]
      refine startsWith_error_false_of_lit "STDOUT:\n" _ (by decide) (by decide)
    · simp only [ne_eq, ho, he, not_false_eq_true, ite_true, if_true, h5,
        List.cons_append, List.nil_append]
      rw [if_neg (by simp)]
      simp only [strJoinSep]
      refine ⟨⟨(("STDOUT:\n" ++ out) ++ "\n") ++ (("STDERR:\n" ++ err) ++ "\n"),
        (String.append_assoc _ _ _).symm⟩, ?_⟩
      rw [String.append_assoc, String.append_assoc]
      refine startsWith_error_false_of_lit "STDOUT:\n" _ (by decide) (by decide)

/-- C6 witness: exit code 3 with stdout present is reported inside the
payload and is not an error string. -/
theorem C6_nonzero_exit_witness :
    (3 : Int) ≠ 0 ∧
    (∃ pre, run_python_file "/" fsPy (.completed 1 "out" "" 3) "/w" "s.py" [] =
      pre ++ ("Process exited with code " ++ intRepr 3)) ∧
    strStartsWith (run_python_file "/" fsPy (.completed 1 "out" "" 3) "/w" "s.py" [])
      "Error" = false :=
  ⟨by decide,
   (C6_nonzero_exit_in_ok_payload "/" fsPy "/w" "s.py" [] 1 "out" "" 3
     (by decide) (by decide) (by decide) (by decide) (by decide)).1,
   (C6_nonzero_exit_in_ok_payload "/" fsPy "/w" "s.py" [] 1 "out" "" 3
     (by decide) (by decide) (by decide) (by decide) (by decide)).2⟩


/- ## Claim C3: the dispatcher overrides any caller-supplied root -/

lemma argsLookup_some_mem (k : String) (v : ArgVal) :
    ∀ m : Args, argsLookup m k = some v → (k, v) ∈ m := by
  intro m
  induction m with
  | nil => intro h; exact absurd h (by simp [argsLookup])
  | cons p rest ih =>
    obtain ⟨q, w⟩ := p
    intro h
    have step : argsLookup ((q, w) :: rest) k =
        if q = k then some w else argsLookup rest k := rfl
    rw [step] at h
    by_cases hq : q = k
    · subst hq
      rw [if_pos rfl] at h
      have hv : w = v := Option.some.inj h
      subst hv
      exact List.mem_cons_self _ _
    · rw [if_neg hq] at h
      exact List.mem_cons_of_mem _ (ih h)

lemma mem_argsErase_of_mem (key k : String) (v : ArgVal) (hk : k ≠ key) :
    ∀ m : Args, (k, v) ∈ m → (k, v) ∈ argsErase key m := by
  intro m
  induction m with
  | nil => intro h; exact absurd h (by simp)
  | cons p rest ih =>
    obtain ⟨q, w⟩ := p
    intro h
    rcases List.mem_cons.mp h with h | h
    · obtain ⟨hq, hw⟩ := Prod.mk.injEq .. ▸ h
      subst hq; subst hw
      unfold argsErase
      rw [if_neg hk]
      exact List.mem_cons_self _ _
    · unfold argsErase
      by_cases hq : q = key
      · rw [if_pos hq]; exact ih h
      · rw [if_neg hq]; exact List.mem_cons_of_mem _ (ih h)

lemma keysOk_false_of_mem (params : List String) (k : String) (v : ArgVal)
    (hk : params.contains k = false) :
    ∀ m : Args, (k, v) ∈ m → keysOk params m = false := by
  intro m
  induction m with
  | nil => intro h; exact absurd h (by simp)
  | cons p rest ih =>
    obtain ⟨q, w⟩ := p
    intro h
    rcases List.mem_cons.mp h with h | h
    · obtain ⟨hq, _⟩ := Prod.mk.injEq .. ▸ h
      subst hq
      unfold keysOk
      rw [hk, Bool.false_and]
    · unfold keysOk
      rw [ih h, Bool.and_false]

lemma acceptedParams_not_root (name : String) :
    (acceptedParams name).contains "root" = false := by
  unfold acceptedParams
  repeat' split
  all_goals decide

/-- C3 counterexample: two requests identical except for a caller-supplied
`root` argument do not dispatch the same way — the request carrying the
`root` key aborts with a `TypeError` escaping the dispatcher (no tool
function accepts a `root` keyword), while the request without it dispatches
normally. -/
theorem C3_root_key_divergence_cex :
    argsErase "root" [("root", ArgVal.str "/evil"), ("file_path", ArgVal.str "s.py")] =
      argsErase "root" [("file_path", ArgVal.str "s.py")] ∧
    call_function ctx0 ⟨"run_python_file",
      [("root", ArgVal.str "/evil"), ("file_path", ArgVal.str "s.py")]⟩ = none ∧
    call_function ctx0 ⟨"run_python_file",
      [("file_path", ArgVal.str "s.py")]⟩ ≠ none := by
  refine ⟨by decide, by decide, by decide⟩

/-- C3 (amended): the dispatcher injects the process-wide root as the
working-directory argument, superseding whatever the caller supplied, so two
requests that agree outside the `working_directory` key — whatever its
caller-supplied value, present or absent — dispatch identically; and a
request carrying a `root` key never reaches a tool at all: whatever value it
holds, the keyword is rejected (`TypeError` escaping the dispatcher, caught
by the loop's per-iteration handler).  Either way the caller cannot choose
the confinement root. -/
theorem C3_dispatch_root_override :
    (∀ (ctx : Ctx) (name : String) (m1 m2 : Args),
      argsErase "working_directory" m1 = argsErase "working_directory" m2 →
      call_function ctx ⟨name, m1⟩ = call_function ctx ⟨name, m2⟩) ∧
    (∀ (ctx : Ctx) (name : String) (m : Args) (v : ArgVal),
      name ∈ registryNames → argsLookup m "root" = some v →
      call_function ctx ⟨name, m⟩ = none) := by
  constructor
  · intro ctx name m1 m2 h
    simp only [call_function, argsSet, h]
  · intro ctx name m v hname hroot
    have hmem : ("root", v) ∈ argsSet m "working_directory" (.str injectedRoot) :=
      List.mem_cons_of_mem _
        (mem_argsErase_of_mem "working_directory" "root" v (by decide) m
          (argsLookup_some_mem "root" v m hroot))
    have hk : keysOk (acceptedParams name)
        (argsSet m "working_directory" (.str injectedRoot)) = false :=
      keysOk_false_of_mem (acceptedParams name) "root" v
        (acceptedParams_not_root name) _ hmem
    unfold call_function
    rw [if_neg (not_not_intro hname)]
    simp only [hk, Bool.not_false, if_true, ite_true]

/-- C3 witness: injecting over a caller-supplied `/etc` equals omitting the
key entirely, and a `write_file` request smuggling a `root` key aborts. -/
theorem C3_dispatch_root_override_witness :
    call_function ctx0 ⟨"run_python_file",
      [("working_directory", ArgVal.str "/etc"),
       ("file_path", ArgVal.str "s.py")]⟩ =
      call_function ctx0 ⟨"run_python_file", [("file_path", ArgVal.str "s.py")]⟩ ∧
    call_function ctx0 ⟨"write_file",
      [("root", ArgVal.str "/evil"), ("file_path", ArgVal.str "f"),
       ("content", ArgVal.str "x")]⟩ = none :=
  ⟨C3_dispatch_root_override.1 ctx0 "run_python_file" _ _ (by decide),
   C3_dispatch_root_override.2 ctx0 "write_file" _ (ArgVal.str "/evil")
     (by decide) (by decide)⟩

/- ## Claim C8: directory listing produces one line per child -/

lemma digitChar_ne_newline (n : Nat) : digitChar n ≠ '\n' := by
  unfold digitChar
  repeat' split
  all_goals decide

lemma natReprAux_ne_newline :
    ∀ (fuel n : Nat), ∀ c ∈ natReprAux fuel n, c ≠ '\n' := by
  intro fuel
  induction fuel with
  | zero => intro n c hc; simp [natReprAux] at hc
  | succ m ih =>
    intro n c hc
    unfold natReprAux at hc
    by_cases h : n < 10
    · rw [if_pos h] at hc
      simp only [List.mem_singleton] at hc
      subst hc
      exact digitChar_ne_newline n
    · rw [if_neg h] at hc
      rw [List.mem_append] at hc
      rcases hc with hc | hc
      · exact ih (n / 10) c hc
      · simp only [List.mem_singleton] at hc
        subst hc
        exact digitChar_ne_newline _

lemma countChar_append (c : Char) (a b : String) :
    countChar c (a ++ b) = countChar c a + countChar c b := by
  unfold countChar
  rw [String.data_append, List.countP_append]

lemma countChar_eq_zero (c : Char) (s : String) (h : ∀ d ∈ s.data, d ≠ c) :
    countChar c s = 0 := by
  unfold countChar
  exact List.countP_eq_zero.mpr (by intro d hd; simpa using h d hd)

lemma countChar_natRepr_newline (n : Nat) : countChar '\n' (natRepr n) = 0 :=
  countChar_eq_zero _ _ (fun d hd => natReprAux_ne_newline (n + 1) n d hd)

lemma countChar_pyBool_newline (b : Bool) : countChar '\n' (pyBool b) = 0 := by
  cases b <;> decide

lemma countChar_filesInfoLine (fs : FS) (t name : String)
    (h : countChar '\n' name = 0) :
    countChar '\n' (filesInfoLine fs t name) = 1 := by
  unfold filesInfoLine
  simp only [countChar_append]
  rw [h, countChar_natRepr_newline, countChar_pyBool_newline]
  decide

lemma foldl_append_eq_strConcat (f : String → String) :
    ∀ (l : List String) (init : String),
      l.foldl (fun acc name => acc ++ f name) init =
        init ++ strConcat (l.map f) := by
  intro l
  induction l with
  | nil => intro init; simp [strConcat, String.append_empty]
  | cons a rest ih =>
    intro init
    simp only [List.foldl_cons, List.map_cons, strConcat]
    rw [ih (init ++ f a), String.append_assoc]

lemma countChar_strConcat_ones (f : String → String) :
    ∀ l : List String, (∀ x ∈ l, countChar '\n' (f x) = 1) →
      countChar '\n' (strConcat (l.map f)) = l.length := by
  intro l
  induction l with
  | nil => intro _; rfl
  | cons a rest ih =>
    intro h
    simp only [List.map_cons, strConcat, List.length_cons]
    rw [countChar_append, h a (by simp), ih (fun x hx => h x (by simp [hx]))]
    omega

/-- C8 (amended): when the canonical working directory passes the code's
extra `/AI_agent` project check, listing a directory with N children yields
exactly the N formatted lines (name, byte size, directory flag — one line,
hence one newline, per child); a target that is not a directory always
yields an error result. -/
theorem C8_directory_listing (cwd : String) (fs : FS) (wd dir : String)
    (h1 : strStartsWith (abspath cwd (pjoin wd dir)) (abspath cwd wd) = true)
    (h2 : strContains (abspath cwd wd) "/AI_agent" = true)
    (h3 : isDirAt fs (abspath cwd (pjoin wd dir)) = true)
    (h4 : ∀ name ∈ childrenAt fs (abspath cwd (pjoin wd dir)),
      countChar '\n' name = 0) :
    get_files_info cwd fs none wd dir =
      strConcat ((childrenAt fs (abspath cwd (pjoin wd dir))).map
        (filesInfoLine fs (abspath cwd (pjoin wd dir)))) ∧
    countChar '\n' (get_files_info cwd fs none wd dir) =
      (childrenAt fs (abspath cwd (pjoin wd dir))).length ∧
    (∀ (fs' : FS) (fault : Option String) (wd' dir' : String),
      isDirAt fs' (abspath cwd (pjoin wd' dir')) = false →
      strStartsWith (get_files_info cwd fs' fault wd' dir') "Error" = true) := by
  have hmain : get_files_info cwd fs none wd dir =
      strConcat ((childrenAt fs (abspath cwd (pjoin wd dir))).map
        (filesInfoLine fs (abspath cwd (pjoin wd dir)))) := by
    unfold get_files_info
    simp only [h1, h2, h3, Bool.not_true, Bool.false_eq_true, if_false,
      Bool.and_self, if_true, ite_true, ite_false]
    rw [foldl_append_eq_strConcat]
    exact String.empty_append _
  refine ⟨hmain, ?_, ?_⟩
  · rw [hmain]
    exact countChar_strConcat_ones _ _
      (fun x hx => countChar_filesInfoLine fs _ x (h4 x hx))
  · intro fs' fault wd' dir' hnd
    unfold get_files_info
    cases fault with
    | some e => exact strStartsWith_append "Error: " e "Error" (by decide)
    | none =>
      by_cases hc : strStartsWith (abspath cwd (pjoin wd' dir'))
          (abspath cwd wd') = true
      · simp only [hc, hnd, Bool.not_true, Bool.false_eq_true, if_false,
          ite_false, ite_true]
        exact strStartsWith_append _ _ "Error"
          (strStartsWith_append "Error: \"" dir' "Error" (by decide))
      · simp only [Bool.not_eq_true] at hc
        simp only [hc, Bool.not_false, if_true, ite_true]
        exact strStartsWith_append _ _ "Error"
          (strStartsWith_append "Error: Cannot list \"" dir' "Error" (by decide))



/-- C8 counterexample: a directory with one child, inside the configured
root, is not listed as one line — the code's extra `/AI_agent` substring
check denies it when the canonical root lacks that substring. -/
theorem C8_access_denied_cex :
    (childrenAt fsL (abspath "/" (pjoin "/tmp/work" "."))).length = 1 ∧
    isDirAt fsL (abspath "/" (pjoin "/tmp/work" ".")) = true ∧
    strStartsWith (abspath "/" (pjoin "/tmp/work" ".")) (abspath "/" "/tmp/work") = true ∧
    get_files_info "/" fsL none "/tmp/work" "." =
      "Error: Access denied - not within permitted project directory" ∧
    countChar '\n' (get_files_info "/" fsL none "/tmp/work" ".") ≠ 1 := by
  refine ⟨by decide, by decide, by decide, by decide, by decide⟩

/-- C8 witness: under the `/AI_agent` root the one-child directory yields
exactly one formatted line. -/
theorem C8_directory_listing_witness :
    strContains (abspath "/" "/AI_agent/w") "/AI_agent" = true ∧
    get_files_info "/" fsL2 none "/AI_agent/w" "." =
      "- a.txt: file_size=2 bytes, is_dir=False\n" ∧
    countChar '\n' (get_files_info "/" fsL2 none "/AI_agent/w" ".") = 1 :=
  ⟨by decide,
   by rw [(C8_directory_listing "/" fsL2 "/AI_agent/w" "."
       (by decide) (by decide) (by decide) (by decide)).1]; decide,
   by rw [(C8_directory_listing "/" fsL2 "/AI_agent/w" "."
       (by decide) (by decide) (by decide) (by decide)).2.1]; decide⟩


/- ## Claim C2: write-then-read returns the attributed content -/

lemma fsLookup_fsSet_self (fs : FS) (p : String) (n : FSNode) :
    fsLookup (fsSet fs p n) p = some n := by
  unfold fsSet fsLookup
  simp

lemma isFileAt_fsSet_file (fs : FS) (p : String) (c : String) (sz : Nat) :
    isFileAt (fsSet fs p (.file c sz)) p = true := by
  unfold isFileAt
  rw [fsLookup_fsSet_self]

lemma contentAt_fsSet_file (fs : FS) (p : String) (c : String) (sz : Nat) :
    contentAt (fsSet fs p (.file c sz)) p = c := by
  unfold contentAt
  rw [fsLookup_fsSet_self]

lemma fsLookup_makedirs_ne (fs : FS) (d q : String) (h : q ≠ d) :
    fsLookup (makedirs fs d) q = fsLookup fs q := by
  unfold makedirs
  by_cases he : pathExists fs d
  · rw [if_pos he]
  · rw [if_neg he]
    have step : fsLookup ((d, FSNode.dir [] 0) :: fs) q =
        if d = q then some (FSNode.dir [] 0) else fsLookup fs q := rfl
    rw [step, if_neg (Ne.symm h)]

lemma pathExists_makedirs_ne (fs : FS) (d q : String) (h : q ≠ d) :
    pathExists (makedirs fs d) q = pathExists fs q := by
  unfold pathExists
  rw [fsLookup_makedirs_ne fs d q h]

lemma get_file_content_after_set (cwd : String) (fs : FS) (maxChars : Nat)
    (wd fp c : String) (sz : Nat)
    (h1 : strStartsWith (abspath cwd (pjoin wd fp)) (abspath cwd wd) = true) :
    get_file_content cwd (fsSet fs (abspath cwd (pjoin wd fp)) (.file c sz))
      maxChars none wd fp = strTake c maxChars := by
  unfold get_file_content
  simp only [h1, Bool.not_true, Bool.false_eq_true, if_false, ite_false,
    isFileAt_fsSet_file, Bool.not_true, contentAt_fsSet_file]

lemma write_file_overwrite_eq (cwd : String) (fs : FS) (ts wd fp content : String)
    (h1 : strStartsWith (abspath cwd (pjoin wd fp)) (abspath cwd wd) = true)
    (hE : pathExists fs (abspath cwd (pjoin wd fp)) = true)
    (h2 : isDirAt fs (abspath cwd (pjoin wd fp)) = false) :
    write_file cwd fs ts none false none wd fp content =
      (fsSet fs (abspath cwd (pjoin wd fp))
        (.file (add_line_attribution false
            (contentAt fs (abspath cwd (pjoin wd fp))) content fp ts)
          (add_line_attribution false
            (contentAt fs (abspath cwd (pjoin wd fp))) content fp ts).length),
       writeSuccessMessage false (contentAt fs (abspath cwd (pjoin wd fp)))
         (add_line_attribution false
           (contentAt fs (abspath cwd (pjoin wd fp))) content fp ts) fp) := by
  unfold write_file writeSuccessMessage
  simp only [h1, hE, h2, Bool.not_true, Bool.false_eq_true, if_false,
    Option.isSome_none, Bool.and_false, Bool.false_and, Bool.and_true,
    Bool.true_and, ite_false, ite_true, Bool.not_false]

lemma write_file_create_eq (cwd : String) (fs : FS) (ts wd fp content : String)
    (h1 : strStartsWith (abspath cwd (pjoin wd fp)) (abspath cwd wd) = true)
    (hE : pathExists fs (abspath cwd (pjoin wd fp)) = false)
    (h3 : dirname (abspath cwd (pjoin wd fp)) ≠ abspath cwd (pjoin wd fp)) :
    write_file cwd fs ts none false none wd fp content =
      (fsSet (makedirs fs (dirname (abspath cwd (pjoin wd fp))))
        (abspath cwd (pjoin wd fp))
        (.file (add_line_attribution true "" content fp ts)
          (add_line_attribution true "" content fp ts).length),
       writeSuccessMessage true "" (add_line_attribution true "" content fp ts) fp) := by
  have hpe : pathExists (makedirs fs (dirname (abspath cwd (pjoin wd fp))))
      (abspath cwd (pjoin wd fp)) = false := by
    rw [pathExists_makedirs_ne _ _ _ (Ne.symm h3)]
    exact hE
  unfold write_file writeSuccessMessage
  simp only [h1, hE, hpe, Bool.not_true, Bool.not_false, Bool.false_eq_true,
    Option.isSome_none, Bool.and_false, Bool.false_and, Bool.and_true,
    Bool.true_and, if_false, if_true, ite_false, ite_true]

/-- C2 (amended): writing then reading the same relative path returns the
attribution-transformed content — not the raw content — and the success
message reports the character count of the transformed content actually
written.  The transformation is `add_line_attribution`: a creation header
for a previously absent file, per-line modification markers on an
overwrite. -/
theorem C2_write_then_read_attributed (cwd : String) (fs : FS) (ts : String)
    (maxChars : Nat) (wd fp content : String)
    (h1 : strStartsWith (abspath cwd (pjoin wd fp)) (abspath cwd wd) = true)
    (h2 : isDirAt fs (abspath cwd (pjoin wd fp)) = false)
    (h3 : dirname (abspath cwd (pjoin wd fp)) ≠ abspath cwd (pjoin wd fp)) :
    get_file_content cwd (write_file cwd fs ts none false none wd fp content).1
        maxChars none wd fp =
      strTake (add_line_attribution (!pathExists fs (abspath cwd (pjoin wd fp)))
        (if pathExists fs (abspath cwd (pjoin wd fp)) = true then
          contentAt fs (abspath cwd (pjoin wd fp)) else "") content fp ts)
        maxChars ∧
    (write_file cwd fs ts none false none wd fp content).2 =
      writeSuccessMessage (!pathExists fs (abspath cwd (pjoin wd fp)))
        (if pathExists fs (abspath cwd (pjoin wd fp)) = true then
          contentAt fs (abspath cwd (pjoin wd fp)) else "")
        (add_line_attribution (!pathExists fs (abspath cwd (pjoin wd fp)))
          (if pathExists fs (abspath cwd (pjoin wd fp)) = true then
            contentAt fs (abspath cwd (pjoin wd fp)) else "") content fp ts)
        fp := by
  by_cases hE : pathExists fs (abspath cwd (pjoin wd fp)) = true
  · rw [write_file_overwrite_eq cwd fs ts wd fp content h1 hE h2]
    simp only [hE, Bool.not_true, ite_true, if_true]
    exact ⟨get_file_content_after_set cwd fs maxChars wd fp _ _ h1, trivial⟩
  · have hEf : pathExists fs (abspath cwd (pjoin wd fp)) = false := by
      simpa using hE
    rw [write_file_create_eq cwd fs ts wd fp content h1 hEf h3]
    simp only [hEf, Bool.not_false, Bool.false_eq_true, ite_false, if_false]
    exact ⟨get_file_content_after_set cwd _ maxChars wd fp _ _ h1, trivial⟩

/-- C2 counterexample: writing `"x"` to a fresh file and reading it back
returns the header-prefixed text, not `"x"`, and the reported character
count (51) is that of the attributed text, not of the supplied content
(1 character, well under the read cap of 1000). -/
theorem C2_roundtrip_cex :
    get_file_content "/" (write_file "/" fsW TS0 none false none "/w" "f.txt" "x").1
        1000 none "/w" "f.txt" =
      "# File created by AI Agent on 2024-01-01 00:00:00\nx" ∧
    get_file_content "/" (write_file "/" fsW TS0 none false none "/w" "f.txt" "x").1
        1000 none "/w" "f.txt" ≠ "x" ∧
    ("x" : String).length = 1 ∧
    (write_file "/" fsW TS0 none false none "/w" "f.txt" "x").2 =
      "Successfully created \"f.txt\" with line-by-line AI attribution (51 characters, 2 lines, 2 lines changed)" := by
  refine ⟨by decide, by decide, by decide, by decide⟩

/-- C2 witness: the amended round trip evaluated on a fresh file. -/
theorem C2_write_then_read_witness :
    strStartsWith (abspath "/" (pjoin "/w" "f.txt")) (abspath "/" "/w") = true ∧
    get_file_content "/" (write_file "/" fsW TS0 none false none "/w" "f.txt" "hello").1
        1000 none "/w" "f.txt" =
      strTake (add_line_attribution
        (!pathExists fsW (abspath "/" (pjoin "/w" "f.txt")))
        (if pathExists fsW (abspath "/" (pjoin "/w" "f.txt")) = true then
          contentAt fsW (abspath "/" (pjoin "/w" "f.txt")) else "")
        "hello" "f.txt" TS0) 1000 :=
  ⟨by decide,
   (C2_write_then_read_attributed "/" fsW TS0 1000 "/w" "f.txt" "hello"
     (by decide) (by decide) (by decide)).1⟩


/- ## Claim C9: attribution headers and per-line markers -/

lemma mapWithIndex_getElem? (f : Nat → String → String) :
    ∀ (l : List String) (st i : Nat),
      (mapWithIndex f st l)[i]? = (l[i]?).map (f (st + i)) := by
  intro l
  induction l with
  | nil => intro st i; simp [mapWithIndex]
  | cons a rest ih =>
    intro st i
    cases i with
    | zero => simp [mapWithIndex]
    | succ j =>
      simp only [mapWithIndex, List.getElem?_cons_succ]
      rw [ih (st + 1) j]
      have harith : st + 1 + j = st + (j + 1) := by omega
      rw [harith]

lemma listPre_refl (p : List Char) : listPre p p = true := by
  induction p with
  | nil => rfl
  | cons a ps ih => simp [listPre, ih]

lemma containsSubL_of_listPre (p s : List Char) (h : listPre p s = true) :
    containsSubL p s = true := by
  cases s with
  | nil => exact h
  | cons c cs => simp [containsSubL, h]

lemma containsSubL_append_right (p : List Char) :
    ∀ (a b : List Char), containsSubL p b = true →
      containsSubL p (a ++ b) = true := by
  intro a
  induction a with
  | nil => intro b h; simpa using h
  | cons c cs ih =>
    intro b h
    simp only [List.cons_append, containsSubL, Bool.or_eq_true]
    exact Or.inr (ih b h)

lemma strContains_mid (x lit y : String) :
    strContains (x ++ (lit ++ y)) lit = true := by
  unfold strContains
  rw [String.data_append, String.data_append]
  exact containsSubL_append_right _ _ _
    (containsSubL_of_listPre _ _ (listPre_append_left _ _ _ (listPre_refl _)))

lemma aiComment_contains (st : CommentStyle) (ts : String) :
    strContains (aiCommentOf st ts) "Modified by AI Agent on " = true := by
  cases st with
  | line s =>
    show strContains (" " ++ s ++ "Modified by AI Agent on " ++ ts) _ = true
    rw [String.append_assoc]
    exact strContains_mid _ _ _
  | block s e =>
    show strContains (" " ++ s ++ "Modified by AI Agent on " ++ ts ++ e) _ = true
    rw [String.append_assoc, String.append_assoc]
    exact strContains_mid _ _ _

lemma fileHeader_contains (st : CommentStyle) (ts : String) :
    strContains (fileHeaderOf st ts) "File created by AI Agent on " = true := by
  cases st with
  | line s =>
    show strContains (s ++ "File created by AI Agent on " ++ ts) _ = true
    rw [String.append_assoc]
    exact strContains_mid _ _ _
  | block s e =>
    show strContains (s ++ "File created by AI Agent on " ++ ts ++ e) _ = true
    rw [String.append_assoc, String.append_assoc]
    exact strContains_mid _ _ _

/-- C9 (amended): a newly created file is written as a timestamped
`File created by AI Agent` header line followed by the supplied content when
the content has any non-whitespace character (header alone when the content
is blank); an overwrite is written as the new lines rejoined with `"\n"`,
where every line that was added or differs from the corresponding original
line and is non-blank gets the timestamped `Modified by AI Agent` comment
appended. -/
theorem C9_attribution_markers (cwd : String) (fs : FS) (ts : String)
    (wd fp content : String)
    (h1 : strStartsWith (abspath cwd (pjoin wd fp)) (abspath cwd wd) = true)
    (h2 : isDirAt fs (abspath cwd (pjoin wd fp)) = false)
    (h3 : dirname (abspath cwd (pjoin wd fp)) ≠ abspath cwd (pjoin wd fp)) :
    (pathExists fs (abspath cwd (pjoin wd fp)) = false →
      isBlank content = false →
      contentAt (write_file cwd fs ts none false none wd fp content).1
          (abspath cwd (pjoin wd fp)) =
        fileHeaderOf (get_comment_style fp) ts ++ "\n" ++ content) ∧
    (pathExists fs (abspath cwd (pjoin wd fp)) = false →
      isBlank content = true →
      contentAt (write_file cwd fs ts none false none wd fp content).1
          (abspath cwd (pjoin wd fp)) =
        fileHeaderOf (get_comment_style fp) ts ++ "\n") ∧
    (pathExists fs (abspath cwd (pjoin wd fp)) = true →
      contentAt (write_file cwd fs ts none false none wd fp content).1
          (abspath cwd (pjoin wd fp)) =
        strJoinSep "\n" (attributionLines
          (contentAt fs (abspath cwd (pjoin wd fp))) content
          (aiCommentOf (get_comment_style fp) ts)) ∧
      (∀ (i : Nat) (line : String), (splitlines content)[i]? = some line →
        ((splitlines (contentAt fs (abspath cwd (pjoin wd fp)))).length ≤ i ∨
          line ≠ (splitlines (contentAt fs (abspath cwd (pjoin wd fp)))).getD i "") →
        isBlank line = false →
        (attributionLines (contentAt fs (abspath cwd (pjoin wd fp))) content
          (aiCommentOf (get_comment_style fp) ts))[i]? =
          some (line ++ aiCommentOf (get_comment_style fp) ts))) ∧
    strContains (fileHeaderOf (get_comment_style fp) ts)
      "File created by AI Agent on " = true ∧
    strContains (aiCommentOf (get_comment_style fp) ts)
      "Modified by AI Agent on " = true := by
  refine ⟨?_, ?_, ?_, fileHeader_contains _ _, aiComment_contains _ _⟩
  · intro hE hb
    rw [write_file_create_eq cwd fs ts wd fp content h1 hE h3]
    rw [contentAt_fsSet_file]
    unfold add_line_attribution
    rw [hb]
    rfl
  · intro hE hb
    rw [write_file_create_eq cwd fs ts wd fp content h1 hE h3]
    rw [contentAt_fsSet_file]
    unfold add_line_attribution
    rw [hb]
    rfl
  · intro hE
    constructor
    · rw [write_file_overwrite_eq cwd fs ts wd fp content h1 hE h2]
      rw [contentAt_fsSet_file]
      rfl
    · intro i line hline hchange hblank
      unfold attributionLines
      rw [mapWithIndex_getElem?, Nat.zero_add, hline]
      show some _ = some _
      congr 1
      unfold attributedLine
      beta_reduce
      have hcond : (splitlines (contentAt fs (abspath cwd (pjoin wd fp)))).length ≤ i ∨
          (i < (splitlines (contentAt fs (abspath cwd (pjoin wd fp)))).length ∧
            line ≠ (splitlines (contentAt fs (abspath cwd (pjoin wd fp)))).getD i "") := by
        by_cases hle : (splitlines (contentAt fs (abspath cwd (pjoin wd fp)))).length ≤ i
        · exact Or.inl hle
        · rcases hchange with hch | hch
          · exact Or.inl hch
          · exact Or.inr ⟨Nat.lt_of_not_le hle, hch⟩
      rw [if_pos hcond, hblank]
      simp

/-- C9 counterexample: overwriting `"a"` with the whitespace line `" "` — a
non-empty line that differs from the original — writes `" "` with no
`Modified by AI Agent` marker, because the code skips lines that are blank
(whitespace-only), not merely empty. -/
theorem C9_blank_changed_line_cex :
    (" " : String) ≠ "" ∧ (" " : String) ≠ "a" ∧
    contentAt (write_file "/" fsP TS0 none false none "/w" "f.py" " ").1
      (abspath "/" (pjoin "/w" "f.py")) = " " ∧
    strContains (contentAt (write_file "/" fsP TS0 none false none "/w" "f.py" " ").1
      (abspath "/" (pjoin "/w" "f.py"))) "Modified by AI Agent" = false := by
  refine ⟨by decide, by decide, by decide, by decide⟩

/-- C9 witness: the amended statement at a concrete overwrite. -/
theorem C9_attribution_witness :
    pathExists fsP (abspath "/" (pjoin "/w" "f.py")) = true ∧
    contentAt (write_file "/" fsP TS0 none false none "/w" "f.py" "b").1
      (abspath "/" (pjoin "/w" "f.py")) =
      strJoinSep "\n" (attributionLines
        (contentAt fsP (abspath "/" (pjoin "/w" "f.py"))) "b"
        (aiCommentOf (get_comment_style "f.py") TS0)) :=
  ⟨by decide,
   ((C9_attribution_markers "/" fsP TS0 "/w" "f.py" "b"
     (by decide) (by decide) (by decide)).2.2.1 (by decide)).1⟩


/- ## Claim C10: every failure yields a string beginning with "Error" -/

/-- C10: each tool operation is a total function into strings, and every
failure class — a set exception oracle (I/O or subprocess fault), a
containment violation, a missing or wrong-type target, a directory-write
collision, a non-script target — produces a result beginning with
`"Error"`. -/
theorem C10_failures_yield_error_strings :
    (∀ (cwd : String) (fs : FS) (fault : Option String) (wd dir : String),
      (fault.isSome = true ∨
        strStartsWith (abspath cwd (pjoin wd dir)) (abspath cwd wd) = false ∨
        isDirAt fs (abspath cwd (pjoin wd dir)) = false ∨
        strContains (abspath cwd wd) "/AI_agent" = false) →
      strStartsWith (get_files_info cwd fs fault wd dir) "Error" = true) ∧
    (∀ (cwd : String) (fs : FS) (maxChars : Nat) (rf : Option String)
        (wd fp : String),
      (rf.isSome = true ∨
        strStartsWith (abspath cwd (pjoin wd fp)) (abspath cwd wd) = false ∨
        isFileAt fs (abspath cwd (pjoin wd fp)) = false) →
      strStartsWith (get_file_content cwd fs maxChars rf wd fp) "Error" = true) ∧
    (∀ (cwd : String) (fs : FS) (ts : String) (mf : Option String) (orf : Bool)
        (wf : Option WriteFault) (wd fp content : String),
      (strStartsWith (abspath cwd (pjoin wd fp)) (abspath cwd wd) = false ∨
        (pathExists fs (abspath cwd (pjoin wd fp)) = false ∧ mf.isSome = true) ∨
        isDirAt fs (abspath cwd (pjoin wd fp)) = true ∨
        wf.isSome = true) →
      strStartsWith (write_file cwd fs ts mf orf wf wd fp content).2 "Error" = true) ∧
    (∀ (cwd : String) (fs : FS) (proc : ProcResult) (wd fp : String)
        (args : List String),
      (strStartsWith (abspath cwd (pjoin wd fp)) (abspath cwd wd) = false ∨
        pathExists fs (abspath cwd (pjoin wd fp)) = false ∨
        strEndsWith (abspath cwd (pjoin wd fp)) ".py" = false ∨
        (∃ e, proc = .fault e) ∨
        (∃ d out err rc, proc = .completed d out err rc ∧ TIMEOUT_SECONDS < d)) →
      strStartsWith (run_python_file cwd fs proc wd fp args) "Error" = true) := by
  refine ⟨?_, ?_, ?_, ?_⟩
  · intro cwd fs fault wd dir h
    cases fault with
    | some e => exact strStartsWith_append "Error: " e "Error" (by decide)
    | none =>
      by_cases hc : strStartsWith (abspath cwd (pjoin wd dir)) (abspath cwd wd) = true
      · by_cases hd : isDirAt fs (abspath cwd (pjoin wd dir)) = true
        · have hcont : strContains (abspath cwd wd) "/AI_agent" = false := by
            rcases h with h | h | h | h
            · exact absurd h (by simp)
            · rw [hc] at h; exact absurd h (by simp)
            · rw [hd] at h; exact absurd h (by simp)
            · exact h
          simp only [get_files_info, hc, hd, hcont, Bool.not_true,
            Bool.false_eq_true, if_false, ite_false, Bool.false_and,
            if_true, ite_true]
          decide
        · have hdf : isDirAt fs (abspath cwd (pjoin wd dir)) = false := by
            simpa using hd
          simp only [get_files_info, hc, hdf, Bool.not_true, Bool.not_false,
            Bool.false_eq_true, if_false, ite_false, if_true, ite_true]
          exact strStartsWith_append _ _ "Error"
            (strStartsWith_append "Error: \"" dir "Error" (by decide))
      · have hcf : strStartsWith (abspath cwd (pjoin wd dir)) (abspath cwd wd) = false := by
          simpa using hc
        simp only [get_files_info, hcf, Bool.not_false, if_true, ite_true]
        exact strStartsWith_append _ _ "Error"
          (strStartsWith_append "Error: Cannot list \"" dir "Error" (by decide))
  · intro cwd fs maxChars rf wd fp h
    by_cases hc : strStartsWith (abspath cwd (pjoin wd fp)) (abspath cwd wd) = true
    · by_cases hf : isFileAt fs (abspath cwd (pjoin wd fp)) = true
      · cases rf with
        | some e =>
          simp only [get_file_content, hc, hf, Bool.not_true,
            Bool.false_eq_true, if_false, ite_false]
          exact strStartsWith_append "Error: " e "Error" (by decide)
        | none =>
          exfalso
          rcases h with h | h | h
          · exact absurd h (by simp)
          · rw [hc] at h; exact absurd h (by simp)
          · rw [hf] at h; exact absurd h (by simp)
      · have hff : isFileAt fs (abspath cwd (pjoin wd fp)) = false := by
          simpa using hf
        simp only [get_file_content, hc, hff, Bool.not_true, Bool.not_false,
          Bool.false_eq_true, if_false, ite_false, if_true, ite_true]
        exact strStartsWith_append _ _ "Error"
          (strStartsWith_append "Error: File not found or is not a regular file: \""
            fp "Error" (by decide))
    · have hcf : strStartsWith (abspath cwd (pjoin wd fp)) (abspath cwd wd) = false := by
        simpa using hc
      simp only [get_file_content, hcf, Bool.not_false, if_true, ite_true]
      exact strStartsWith_append _ _ "Error"
        (strStartsWith_append "Error: Cannot read \"" fp "Error" (by decide))
  · intro cwd fs ts mf orf wf wd fp content h
    by_cases hc : strStartsWith (abspath cwd (pjoin wd fp)) (abspath cwd wd) = true
    · by_cases hE : pathExists fs (abspath cwd (pjoin wd fp)) = true
      · by_cases hd : isDirAt fs (abspath cwd (pjoin wd fp)) = true
        · simp only [write_file, hc, hE, hd, Bool.not_true, Bool.false_eq_true,
            Bool.false_and, Bool.and_true, Bool.true_and, if_false, ite_false,
            if_true, ite_true]
          exact strStartsWith_append _ _ "Error"
            (strStartsWith_append "Error: \"" fp "Error" (by decide))
        · have hdf : isDirAt fs (abspath cwd (pjoin wd fp)) = false := by
            simpa using hd
          simp only [write_file, hc, hE, hdf, Bool.not_true, Bool.false_eq_true,
            Bool.false_and, Bool.and_false, Bool.and_true, Bool.true_and,
            if_false, ite_false, if_true, ite_true]
          cases wf with
          | some f =>
            cases f with
            | permission =>
              exact strStartsWith_append _ _ "Error"
                (strStartsWith_append "Error: Permission denied writing to '"
                  fp "Error" (by decide))
            | osError e =>
              exact strStartsWith_append _ _ "Error"
                (strStartsWith_append _ _ "Error"
                  (strStartsWith_append "Error: File system error writing to '"
                    fp "Error" (by decide)))
            | other e =>
              exact strStartsWith_append "Error writing to file: " e "Error"
                (by decide)
          | none =>
            exfalso
            rcases h with h | h | h | h
            · rw [hc] at h; exact absurd h (by simp)
            · rw [hE] at h; exact absurd h.1 (by simp)
            · rw [hdf] at h; exact absurd h (by simp)
            · exact absurd h (by simp)
      · have hEf : pathExists fs (abspath cwd (pjoin wd fp)) = false := by
          simpa using hE
        cases mf with
        | some e =>
          simp only [write_file, hc, hEf, Bool.not_true, Bool.not_false,
            Bool.false_eq_true, if_false, ite_false, Option.isSome_some,
            Bool.and_true, if_true, ite_true]
          exact strStartsWith_append "Error creating directory: " _ "Error"
            (by decide)
        | none =>
          by_cases hd1 : (pathExists (makedirs fs (dirname (abspath cwd (pjoin wd fp))))
              (abspath cwd (pjoin wd fp)) &&
            isDirAt (makedirs fs (dirname (abspath cwd (pjoin wd fp))))
              (abspath cwd (pjoin wd fp))) = true
          · simp only [write_file, hc, hEf, hd1, Bool.not_true, Bool.not_false,
              Bool.false_eq_true, if_false, ite_false, Option.isSome_none,
              Bool.and_false, if_true, ite_true]
            exact strStartsWith_append _ _ "Error"
              (strStartsWith_append "Error: \"" fp "Error" (by decide))
          · have hd1f : (pathExists (makedirs fs (dirname (abspath cwd (pjoin wd fp))))
                (abspath cwd (pjoin wd fp)) &&
              isDirAt (makedirs fs (dirname (abspath cwd (pjoin wd fp))))
                (abspath cwd (pjoin wd fp))) = false := by simpa using hd1
            simp only [write_file, hc, hEf, hd1f, Bool.not_true, Bool.not_false,
              Bool.false_eq_true, if_false, ite_false, Option.isSome_none,
              Bool.and_false, if_true, ite_true]
            cases wf with
            | some f =>
              cases f with
              | permission =>
                exact strStartsWith_append _ _ "Error"
                  (strStartsWith_append "Error: Permission denied writing to '"
                    fp "Error" (by decide))
              | osError e =>
                exact strStartsWith_append _ _ "Error"
                  (strStartsWith_append _ _ "Error"
                    (strStartsWith_append "Error: File system error writing to '"
                      fp "Error" (by decide)))
              | other e =>
                exact strStartsWith_append "Error writing to file: " e "Error"
                  (by decide)
            | none =>
              exfalso
              rcases h with h | h | h | h
              · rw [hc] at h; exact absurd h (by simp)
              · exact absurd h.2 (by simp)
              · have hnd : isDirAt fs (abspath cwd (pjoin wd fp)) = false := by
                  unfold isDirAt
                  unfold pathExists at hEf
                  cases hl : fsLookup fs (abspath cwd (pjoin wd fp)) with
                  | none => rfl
                  | some n => rw [hl] at hEf; exact absurd hEf (by simp)
                rw [hnd] at h
                exact absurd h (by simp)
              · exact absurd h (by simp)
    · have hcf : strStartsWith (abspath cwd (pjoin wd fp)) (abspath cwd wd) = false := by
        simpa using hc
      simp only [write_file, hcf, Bool.not_false, if_true, ite_true]
      exact strStartsWith_append _ _ "Error"
        (strStartsWith_append "Error: Cannot write to \"" fp "Error" (by decide))
  · intro cwd fs proc wd fp args h
    by_cases hc : strStartsWith (abspath cwd (pjoin wd fp)) (abspath cwd wd) = true
    · by_cases hE : pathExists fs (abspath cwd (pjoin wd fp)) = true
      · by_cases hpy : strEndsWith (abspath cwd (pjoin wd fp)) ".py" = true
        · cases proc with
          | fault e =>
            simp only [run_python_file, hc, hE, hpy, Bool.not_true,
              Bool.false_eq_true, if_false, ite_false]
            exact strStartsWith_append "Error executing Python file: " e "Error"
              (by decide)
          | completed d out err rc =>
            have ht : TIMEOUT_SECONDS < d := by
              rcases h with h | h | h | h | h
              · rw [hc] at h; exact absurd h (by simp)
              · rw [hE] at h; exact absurd h (by simp)
              · rw [hpy] at h; exact absurd h (by simp)
              · obtain ⟨e, he⟩ := h; exact absurd he (by simp)
              · obtain ⟨d', o', e', r', he, hlt⟩ := h
                cases he
                exact hlt
            simp only [run_python_file, hc, hE, hpy, Bool.not_true,
              Bool.false_eq_true, if_false, ite_false, ht, if_true, ite_true]
            decide
        · have hpyf : strEndsWith (abspath cwd (pjoin wd fp)) ".py" = false := by
            simpa using hpy
          simp only [run_python_file, hc, hE, hpyf, Bool.not_true, Bool.not_false,
            Bool.false_eq_true, if_false, ite_false, if_true, ite_true]
          exact strStartsWith_append _ _ "Error"
            (strStartsWith_append "Error: \"" fp "Error" (by decide))
      · have hEf : pathExists fs (abspath cwd (pjoin wd fp)) = false := by
          simpa using hE
        simp only [run_python_file, hc, hEf, Bool.not_true, Bool.not_false,
          Bool.false_eq_true, if_false, ite_false, if_true, ite_true]
        exact strStartsWith_append _ _ "Error"
          (strStartsWith_append "Error: File \"" fp "Error" (by decide))
    · have hcf : strStartsWith (abspath cwd (pjoin wd fp)) (abspath cwd wd) = false := by
        simpa using hc
      simp only [run_python_file, hcf, Bool.not_false, if_true, ite_true]
      exact strStartsWith_append _ _ "Error"
        (strStartsWith_append "Error: Cannot execute \"" fp "Error" (by decide))

/-- C10 witness: one concrete failure per operation — an I/O fault while
listing, a traversal attempt while reading, a permission fault while
writing, a subprocess fault while executing — each yields an
`"Error"`-headed string. -/
theorem C10_failures_witness :
    strStartsWith (get_files_info "/" [] (some "boom") "/w" ".") "Error" = true ∧
    strStartsWith (get_file_content "/" [] 10 none "/w" "../x") "Error" = true ∧
    strStartsWith (write_file "/" fsW TS0 none false (some .permission)
      "/w" "f.txt" "x").2 "Error" = true ∧
    strStartsWith (run_python_file "/" fsPy (.fault "boom") "/w" "s.py" [])
      "Error" = true :=
  ⟨C10_failures_yield_error_strings.1 "/" [] (some "boom") "/w" "."
     (Or.inl (by decide)),
   C10_failures_yield_error_strings.2.1 "/" [] 10 none "/w" "../x"
     (Or.inr (Or.inl (by decide))),
   C10_failures_yield_error_strings.2.2.1 "/" fsW TS0 none false
     (some .permission) "/w" "f.txt" "x" (Or.inr (Or.inr (Or.inr (by decide)))),
   C10_failures_yield_error_strings.2.2.2 "/" fsPy (.fault "boom") "/w" "s.py" []
     (Or.inr (Or.inr (Or.inr (Or.inl ⟨"boom", rfl⟩))))⟩

end AIAgent
